import Mathlib

/-!
# NEP mail gateway — verification of the protocol-handling layer

Shallow embedding of the protocol handlers of the NEP repository:

* `src/core/nep.py`  — native framed protocol (`NEPServer.process_request`,
  `handle_send`, `handle_list`);
* `src/core/nept.py` — SMTP-compatible protocol (`NEPTServer.process_smtp`,
  `read_email_data`, `handle_smtp_auth`, `store_smtp_email`).

External collaborators (Storage, RateLimiter, authentication, header
parsing) are contracts in the source (`storage/base.py` is abstract; the
rate limiter's internal algorithm is explicitly out of scope), so they are
embedded as oracle fields of an environment record `Env`.  Side effects
(rate-limit checks, storage calls, wire replies) are made explicit as a
trace of `Call` events, and Python exceptions are modelled by the handlers
returning explicit termination outcomes (the native handler catches every
exception internally and is therefore a total function into responses).
-/

namespace NEP

/-- Canonical email record.  Modelled from the spec: `models/mail.py` is not
under `src/`; §3 of the spec lists the fields of a CanonicalEmail
(`message_id`, `from_addr`, `to_addrs`, `subject`, `body`, `attachments`);
the fields `flags`, `mailbox`, `created_at` play no role in any claim and
are omitted.  Construction stores the given field values; §4.2 enumerates
the failure paths of `send` as exactly `invalid_data` (missing key) and
`storage_error`, so no constructor-side validation is modelled. -/
structure EmailMessage where
  message_id : String
  from_addr : String
  to_addrs : List String
  subject : String
  body : String
  attachments : List String
deriving DecidableEq, Repr

/-- An authenticated session, as used by `nep.py` (`session['user_id']`,
`session['email']`). -/
structure Session where
  user_id : String
  email : String
deriving DecidableEq, Repr

/-- Observable effect events emitted by the handlers: a rate-limiter
consultation (`RateLimiter.check_limit`), a storage call
(`storage.store_email` / `storage.list_emails`), or an SMTP wire reply
(`writer.write`).  The constructors record the arguments handed to the
collaborator. -/
inductive Call where
  | checkLimit (userId ty : String)
  | storeEmail (e : EmailMessage)
  | listEmails (user mailbox : String) (limit offset : Int)
  | reply (s : String)
deriving DecidableEq, Repr

/-- `true` exactly on rate-limiter consultation events. -/
def Call.isCheck : Call → Bool
  | .checkLimit _ _ => true
  | .storeEmail _ => false
  | .listEmails _ _ _ _ => false
  | .reply _ => false

/-- `true` exactly on Storage-operation events. -/
def Call.isStorage : Call → Bool
  | .checkLimit _ _ => false
  | .storeEmail _ => true
  | .listEmails _ _ _ _ => true
  | .reply _ => false

/-- Environment of external collaborators, used as oracles:
`check_limit` is the rate-limiter contract (§4.6, external), `storeOk e`
says whether `storage.store_email e` succeeds or raises, `listResult`
gives the outcome of `storage.list_emails` (`none` = raises), `authOk`
is the result of `utils.auth.authenticate_smtp` on a credential line,
`freshId` is the message id assigned at creation time, and
`parseSubject`/`parseBody` abstract the header parsing done by
`email.message_from_string`. -/
structure Env where
  check_limit : String → String → Bool
  storeOk : EmailMessage → Bool
  listResult : String → String → Int → Int → Option (List EmailMessage)
  authOk : String → Bool
  freshId : String
  parseSubject : String → String
  parseBody : String → String

/-- Python string operations, re-implemented structurally over the
character list of the string (rather than through the byte-position loops
of the core `String` API) so that every handler below is fully
kernel-computable.  `stripChars cs s` is Python `s.strip(cs)`: remove any
of the characters of `cs` from both ends of `s` (used by `nept.py` as
`.strip('<> ')`). -/
def stripChars (cs : String) (s : String) : String :=
  let l := s.data.dropWhile (fun c => cs.data.contains c)
  String.mk (l.reverse.dropWhile (fun c => cs.data.contains c)).reverse

/-- Python `str.strip()` with no argument: remove whitespace from both
ends (applied by the source to every decoded command line and to the
credential line). -/
def pyStripWS (s : String) : String :=
  let l := s.data.dropWhile Char.isWhitespace
  String.mk (l.reverse.dropWhile Char.isWhitespace).reverse

/-- Python `str.upper()` (ASCII range, which is all the protocol uses). -/
def pyUpper (s : String) : String :=
  String.mk (s.data.map Char.toUpper)

/-- Python `str.startswith(p)`. -/
def pyStartsWith (s p : String) : Bool :=
  p.data.isPrefixOf s.data

/-- Python `s[n:]` (slicing by code points). -/
def pyDrop (n : Nat) (s : String) : String :=
  String.mk (s.data.drop n)

/-- Accumulator worker for `pySplit`. -/
def pyWordsAux : List Char → List Char → List String
  | [], acc => if acc.isEmpty then [] else [String.mk acc.reverse]
  | c :: cs, acc =>
    if c.isWhitespace then
      if acc.isEmpty then pyWordsAux cs []
      else String.mk acc.reverse :: pyWordsAux cs []
    else pyWordsAux cs (c :: acc)

/-- Python `str.split()` with no argument: split on runs of whitespace,
discarding empty pieces (used by `handle_smtp_auth`). -/
def pySplit (s : String) : List String :=
  pyWordsAux s.data []

/-! ## Native protocol (`src/core/nep.py`) -/

/-- One decoded native-protocol frame: each field is `some v` when the
JSON object carries that key and `none` when the key is absent.  A frame
that does not decode to an object at all (malformed JSON, or a JSON value
that is not a dict) is represented by `Option NativeRequest = none` at the
call sites.  A non-string `type` value behaves like an unknown
discriminator and is not distinguished here. -/
structure NativeRequest where
  type? : Option String
  to? : Option (List String)
  subject? : Option String
  body? : Option String
  attachments? : Option (List String)
  mailbox? : Option String
  limit? : Option Int
  offset? : Option Int
deriving DecidableEq, Repr

/-- The default (all-keys-absent) request, a convenient base for literals. -/
def NativeRequest.empty : NativeRequest :=
  ⟨none, none, none, none, none, none, none, none⟩

/-- Native-protocol response payloads: `okSend` is
`{'status': 'ok', 'message_id': ...}`, `okList` is
`{'status': 'ok', 'emails': [...]}`, and `error c` is
`{'status': 'error', 'code': c}`. -/
inductive Response where
  | okSend (message_id : String)
  | okList (emails : List EmailMessage)
  | error (code : String)
deriving DecidableEq, Repr

/-- `NEPServer.handle_send` (nep.py lines 84–111): if any of the keys
`to`, `subject`, `body` is absent, reply `invalid_data` with no storage
call; otherwise build an `EmailMessage` from the session identity and the
fields (`attachments` defaulting to `[]`) and call
`storage.store_email`; a storage failure is mapped to `storage_error`. -/
def handle_send (env : Env) (sess : Session) (req : NativeRequest) :
    Response × List Call :=
  match req.to?, req.subject?, req.body? with
  | some tos, some subj, some bdy =>
    let e : EmailMessage :=
      { message_id := env.freshId
        from_addr := sess.email
        to_addrs := tos
        subject := subj
        body := bdy
        attachments := req.attachments?.getD [] }
    if env.storeOk e then (.okSend e.message_id, [.storeEmail e])
    else (.error "storage_error", [.storeEmail e])
  | _, _, _ => (.error "invalid_data", [])

/-- `NEPServer.handle_list` (nep.py lines 113–130): `mailbox` defaults to
`"INBOX"`, `limit` to `50`, `offset` to `0`; the only collaborator call is
`storage.list_emails`, and its failure is mapped to `storage_error`. -/
def handle_list (env : Env) (sess : Session) (req : NativeRequest) :
    Response × List Call :=
  let mailbox := req.mailbox?.getD "INBOX"
  let limit := req.limit?.getD 50
  let offset := req.offset?.getD 0
  match env.listResult sess.email mailbox limit offset with
  | some emails => (.okList emails, [.listEmails sess.email mailbox limit offset])
  | none => (.error "storage_error", [.listEmails sess.email mailbox limit offset])

/-- `NEPServer.process_request` (nep.py lines 50–82).  The whole body runs
inside `try/except`, so every raised exception becomes the
`server_error` response and the function is total:

* a frame that `json.loads` cannot decode (`none` here) raises, giving
  `server_error`;
* `request['type']` on an object without the key raises `KeyError`,
  giving `server_error`;
* otherwise `RateLimiter.check_limit(session['user_id'], request['type'])`
  is consulted; a denial replies `rate_limit_exceeded` and returns before
  any dispatch;
* the dispatch recognises `send` and `list`; the branches for `fetch` and
  `update` call `self.handle_fetch` / `self.handle_update`, attributes the
  class does not define, so they raise `AttributeError` and become
  `server_error` with no collaborator call;
* any other type value replies `invalid_request`. -/
def process_request (env : Env) (sess : Session) (frame : Option NativeRequest) :
    Response × List Call :=
  match frame with
  | none => (.error "server_error", [])
  | some req =>
    match req.type? with
    | none => (.error "server_error", [])
    | some t =>
      if env.check_limit sess.user_id t then
        let rc :=
          if t = "send" then handle_send env sess req
          else if t = "list" then handle_list env sess req
          else if t = "fetch" then (.error "server_error", [])
          else if t = "update" then (.error "server_error", [])
          else (.error "invalid_request", [])
        (rc.1, .checkLimit sess.user_id t :: rc.2)
      else (.error "rate_limit_exceeded", [.checkLimit sess.user_id t])

/-- The request loop of `NEPServer.handle_client` (nep.py lines 36–42):
frames are served strictly sequentially, one response per frame;
`process_request` catches every exception internally, so no frame
terminates the loop. -/
def session_responses (env : Env) (sess : Session)
    (frames : List (Option NativeRequest)) : List Response :=
  frames.map (fun f => (process_request env sess f).1)

/-! ## SMTP-compatible protocol (`src/core/nept.py`)

The wire is modelled as the list of CRLF-terminated units returned by
`reader.readuntil(b'\r\n')`, each decoded to a `String` that still carries
its trailing `"\r\n"`.  An exhausted list corresponds to `readuntil`
raising at end of stream, which `handle_client` catches by closing the
connection. -/

/-- The per-connection dict `current_email = {'from': ..., 'to': [...],
'data': ...}` of `NEPTServer.process_smtp`. -/
structure SMTPEmail where
  fromAddr : Option String
  to' : List String
  data : Option String
deriving DecidableEq, Repr

/-- The reset value `{'from': None, 'to': [], 'data': None}`. -/
def SMTPEmail.empty : SMTPEmail := ⟨none, [], none⟩

/-- `NEPTServer.read_email_data` (nept.py lines 116–133): consume lines
until one equals `".\r\n"` exactly; a line that starts with `".."` has its
first character dropped; the kept lines are concatenated in order.  The
result is the body together with the unconsumed remainder of the stream;
`none` means the stream ended before the terminator (`readuntil` raised). -/
def read_email_data : List String → Option (String × List String)
  | [] => none
  | l :: rest =>
    if l = ".\r\n" then some ("", rest)
    else
      match read_email_data rest with
      | none => none
      | some (bdy, rem) =>
        some ((if pyStartsWith l ".." then pyDrop 1 l else l) ++ bdy, rem)

/-- `utils.converter.smtp_to_nep`.  Modelled from the spec:
`utils/converter.py` is not under `src/`.  §4.5: the Translator maps the
accumulated transaction (sender, recipients, structurally parsed raw body)
to a CanonicalEmail; it is total over optional fields but fails
explicitly when a required field — sender, at least one recipient, body —
is absent, never fabricating required data.  Header extraction by
`email.message_from_string` is abstracted by the `parseSubject` /
`parseBody` oracles. -/
def smtp_to_nep (env : Env) (cur : SMTPEmail) : Option EmailMessage :=
  match cur.fromAddr, cur.data with
  | some f, some d =>
    if cur.to'.isEmpty then none
    else
      some { message_id := env.freshId
             from_addr := f
             to_addrs := cur.to'
             subject := env.parseSubject d
             body := env.parseBody d
             attachments := [] }
  | _, _ => none

/-- How one command either continues the loop (with the rest of the
stream and the updated transaction) or ends the session. -/
inductive StepResult where
  | cont (rest : List String) (cur : SMTPEmail)
  | quit (cur : SMTPEmail)
  | exn (cur : SMTPEmail)
deriving DecidableEq, Repr

/-- One iteration of the `while True` loop of `NEPTServer.process_smtp`
(nept.py lines 40–99), together with the nested reads that iteration may
perform (`handle_smtp_auth` reading one credential line, `DATA` reading
the body via `read_email_data`).  `raw` is the unit `readuntil` returned;
`line = raw.strip()`; dispatch compares `line.upper()` by prefix, in the
source's `elif` order:

* `HELO`/`EHLO` prefix → reply `250 Hello`;
* `AUTH` prefix → `handle_smtp_auth` (nept.py lines 101–114): fewer than
  two whitespace-separated parts → `False`; mechanism `PLAIN` (upper-cased
  second part) reads one further line and asks `authenticate_smtp` on its
  stripped form; any other mechanism → `False`; the boolean selects the
  `235`/`535` reply;
* `MAIL FROM:` prefix → `current_email['from'] = line[10:].strip('<> ')`,
  leaving `to` and `data` untouched, reply `250 OK`;
* `RCPT TO:` prefix → append `line[8:].strip('<> ')` to
  `current_email['to']`, reply `250 OK`;
* `DATA` (exact) → reply `354`, capture the body, store it via
  `store_smtp_email` (nept.py lines 135–144: parse, translate with
  `smtp_to_nep`, then `storage.store_email`); a translation or storage
  failure raises out of `process_smtp`, ending the session with no
  further reply and no reset; on success reply `250 OK` and reset
  `current_email` to the empty transaction;
* `QUIT` (exact) → reply `221 Bye` and break;
* anything else → reply `500 Command not recognized`. -/
def smtp_step (env : Env) (raw : String) (rest : List String) (cur : SMTPEmail) :
    List Call × StepResult :=
  let line := pyStripWS raw
  let u := pyUpper line
  if pyStartsWith u "HELO" || pyStartsWith u "EHLO" then
    ([.reply "250 Hello\r\n"], .cont rest cur)
  else if pyStartsWith u "AUTH" then
    let parts := pySplit line
    if parts.length < 2 then
      ([.reply "535 Authentication failed\r\n"], .cont rest cur)
    else if pyUpper ((parts.get? 1).getD "") = "PLAIN" then
      match rest with
      | [] => ([], .exn cur)
      | cred :: rest' =>
        if env.authOk (pyStripWS cred) then
          ([.reply "235 Authentication successful\r\n"], .cont rest' cur)
        else
          ([.reply "535 Authentication failed\r\n"], .cont rest' cur)
    else
      ([.reply "535 Authentication failed\r\n"], .cont rest cur)
  else if pyStartsWith u "MAIL FROM:" then
    ([.reply "250 OK\r\n"],
      .cont rest { cur with fromAddr := some (stripChars "<> " (pyDrop 10 line)) })
  else if pyStartsWith u "RCPT TO:" then
    ([.reply "250 OK\r\n"],
      .cont rest { cur with to' := cur.to' ++ [stripChars "<> " (pyDrop 8 line)] })
  else if u = "DATA" then
    match read_email_data rest with
    | none => ([.reply "354 End data with <CR><LF>.<CR><LF>\r\n"], .exn cur)
    | some (bdy, rem) =>
      let cur2 := { cur with data := some bdy }
      match smtp_to_nep env cur2 with
      | none => ([.reply "354 End data with <CR><LF>.<CR><LF>\r\n"], .exn cur2)
      | some e =>
        if env.storeOk e then
          ([.reply "354 End data with <CR><LF>.<CR><LF>\r\n", .storeEmail e,
            .reply "250 OK\r\n"], .cont rem SMTPEmail.empty)
        else
          ([.reply "354 End data with <CR><LF>.<CR><LF>\r\n", .storeEmail e],
            .exn cur2)
  else if u = "QUIT" then
    ([.reply "221 Bye\r\n"], .quit cur)
  else
    ([.reply "500 Command not recognized\r\n"], .cont rest cur)

/-- How the session ended: `quit` on the `QUIT` command, `eof` when the
stream was exhausted at the top of the loop, `exn` when an exception
(`readuntil` at end of stream mid-command, a translation failure, or a
storage failure) escaped to `handle_client`. -/
inductive Outcome where
  | quit
  | eof
  | exn
deriving DecidableEq, Repr

/-- The loop of `NEPTServer.process_smtp`, driven by fuel.  Each
iteration consumes at least one line of the stream, so
`fuel = input.length` always suffices and the fuel-exhaustion branch is
unreachable from `process_smtp` (see `process_smtp_fuel_eq`). -/
def process_smtp_fuel (env : Env) :
    Nat → List String → SMTPEmail → List Call × SMTPEmail × Outcome
  | _, [], cur => ([], cur, .eof)
  | 0, _ :: _, cur => ([], cur, .eof)
  | n + 1, raw :: rest, cur =>
    match smtp_step env raw rest cur with
    | (evs, .quit c) => (evs, c, .quit)
    | (evs, .exn c) => (evs, c, .exn)
    | (evs, .cont rem c) =>
      let r := process_smtp_fuel env n rem c
      (evs ++ r.1, r.2)

/-- `NEPTServer.process_smtp` on a whole stream, starting from transaction
state `cur` (the source initialises `cur = SMTPEmail.empty`): the emitted
events, the final transaction state, and how the session ended. -/
def process_smtp (env : Env) (input : List String) (cur : SMTPEmail) :
    List Call × SMTPEmail × Outcome :=
  process_smtp_fuel env input.length input cur

/-! ## Concrete environments and sessions for witnesses -/

/-- A fully permissive environment: the rate limiter always allows,
storage always succeeds, authentication always succeeds, listing returns
the empty mailbox, the next message id is `"id1"`, and header parsing
yields an empty subject and the raw data as body. -/
def envAllow : Env :=
  { check_limit := fun _ _ => true
    storeOk := fun _ => true
    listResult := fun _ _ _ _ => some []
    authOk := fun _ => true
    freshId := "id1"
    parseSubject := fun _ => ""
    parseBody := fun d => d }

/-- `envAllow` with a storage backend whose `store_email` always raises. -/
def envStoreFail : Env := { envAllow with storeOk := fun _ => false }

/-- `envAllow` with a rate limiter that denies every request. -/
def envDeny : Env := { envAllow with check_limit := fun _ _ => false }

/-- `envAllow` with a storage backend whose `list_emails` always raises. -/
def envListFail : Env := { envAllow with listResult := fun _ _ _ _ => none }

/-- A concrete authenticated session. -/
def sessDemo : Session := ⟨"u1", "u@x"⟩

/-- `true` when the trace contains a Storage operation that no
rate-limiter consultation precedes. -/
def storeBeforeCheck : List Call → Bool
  | [] => false
  | c :: tr =>
    if c.isStorage then true
    else if c.isCheck then false
    else storeBeforeCheck tr

/-! ## Helper lemmas -/

/-- Body capture consumes at least the terminator line: the remainder it
returns is strictly shorter than its input. -/
theorem read_email_data_length :
    ∀ (l : List String) (bdy : String) (rem : List String),
      read_email_data l = some (bdy, rem) → rem.length < l.length := by
  intro l
  induction l with
  | nil => intro bdy rem h; simp [read_email_data] at h
  | cons a l ih =>
    intro bdy rem h
    rw [read_email_data] at h
    split at h
    · simp only [Option.some.injEq, Prod.mk.injEq] at h
      rw [← h.2]
      simp
    · cases hrec : read_email_data l with
      | none => rw [hrec] at h; simp at h
      | some p =>
        obtain ⟨b', r'⟩ := p
        rw [hrec] at h
        simp only [Option.some.injEq, Prod.mk.injEq] at h
        have := ih b' r' hrec
        rw [← h.2]
        simp only [List.length_cons]
        omega

/-- One loop iteration never lengthens the unread stream. -/
theorem smtp_step_cont_length (env : Env) (raw : String) (rest : List String)
    (cur : SMTPEmail) (rem : List String) (c : SMTPEmail)
    (h : (smtp_step env raw rest cur).2 = StepResult.cont rem c) :
    rem.length ≤ rest.length := by
  unfold smtp_step at h
  simp only at h
  repeat' split at h
  all_goals dsimp only at h
  all_goals try cases h
  all_goals try exact Nat.le_refl _
  all_goals try (rename_i hread; exact le_of_lt (read_email_data_length _ _ _ hread))
  all_goals simp only [List.length_cons]
  all_goals omega

set_option maxHeartbeats 1000000 in
/-- Unfolding the loop one iteration (with positive fuel, on a nonempty
stream). -/
theorem process_smtp_fuel_succ_cons (env : Env) (n : Nat) (a : String)
    (l : List String) (cur : SMTPEmail) :
    process_smtp_fuel env (n + 1) (a :: l) cur =
      match smtp_step env a l cur with
      | (evs, .quit c) => (evs, c, .quit)
      | (evs, .exn c) => (evs, c, .exn)
      | (evs, .cont rem c) =>
        let r := process_smtp_fuel env n rem c
        (evs ++ r.1, r.2) := by
  rw [process_smtp_fuel]

/-- Fuel irrelevance: any two sufficient fuel values drive the loop to the
same result, so the fuel-exhaustion branch of `process_smtp_fuel` is
unreachable from `process_smtp`. -/
theorem process_smtp_fuel_congr (env : Env) :
    ∀ (n m : Nat) (input : List String) (cur : SMTPEmail),
      input.length ≤ n → input.length ≤ m →
      process_smtp_fuel env n input cur = process_smtp_fuel env m input cur := by
  intro n
  induction n with
  | zero =>
    intro m input cur hn _
    cases input with
    | nil => cases m <;> rfl
    | cons a l => simp at hn
  | succ n ih =>
    intro m input cur hn hm
    cases input with
    | nil => cases m <;> rfl
    | cons a l =>
      cases m with
      | zero => simp at hm
      | succ m =>
        simp only [List.length_cons, Nat.succ_le_succ_iff] at hn hm
        rw [process_smtp_fuel_succ_cons, process_smtp_fuel_succ_cons]
        cases hstep : smtp_step env a l cur with
        | mk evs sr =>
          cases sr with
          | quit c => rfl
          | exn c => rfl
          | cont rem c =>
            have hrem : rem.length ≤ l.length :=
              smtp_step_cont_length env a l cur rem c (by rw [hstep])
            simp only
            rw [ih m rem c (hrem.trans hn) (hrem.trans hm)]

/-- `process_smtp_fuel` with any sufficient fuel agrees with
`process_smtp`. -/
theorem process_smtp_fuel_eq (env : Env) (n : Nat) (input : List String)
    (cur : SMTPEmail) (h : input.length ≤ n) :
    process_smtp_fuel env n input cur = process_smtp env input cur :=
  process_smtp_fuel_congr env n input.length input cur h (Nat.le_refl _)

/-- No single SMTP loop iteration ever consults the rate limiter. -/
theorem smtp_step_no_check (env : Env) (raw : String) (rest : List String)
    (cur : SMTPEmail) :
    ((smtp_step env raw rest cur).1.countP Call.isCheck) = 0 := by
  unfold smtp_step
  dsimp only
  repeat' split
  all_goals simp [Call.isCheck]

/-- The SMTP loop, at any fuel, never consults the rate limiter. -/
theorem process_smtp_fuel_no_check (env : Env) :
    ∀ (n : Nat) (input : List String) (cur : SMTPEmail),
      ((process_smtp_fuel env n input cur).1.countP Call.isCheck) = 0 := by
  intro n
  induction n with
  | zero => intro input cur; cases input <;> rfl
  | succ n ih =>
    intro input cur
    cases input with
    | nil => rfl
    | cons a l =>
      rw [process_smtp_fuel_succ_cons]
      cases hstep : smtp_step env a l cur with
      | mk evs sr =>
        have hevs : evs.countP Call.isCheck = 0 := by
          have h0 := smtp_step_no_check env a l cur
          rw [hstep] at h0
          exact h0
        cases sr with
        | quit c => simpa using hevs
        | exn c => simpa using hevs
        | cont rem c =>
          simp only [List.countP_append, hevs, ih]

/-- `handle_send` itself never consults the rate limiter. -/
theorem handle_send_no_check (env : Env) (sess : Session) (req : NativeRequest) :
    ((handle_send env sess req).2.countP Call.isCheck) = 0 := by
  unfold handle_send
  dsimp only
  repeat' split
  all_goals simp [Call.isCheck]

/-- `handle_list` itself never consults the rate limiter. -/
theorem handle_list_no_check (env : Env) (sess : Session) (req : NativeRequest) :
    ((handle_list env sess req).2.countP Call.isCheck) = 0 := by
  unfold handle_list
  dsimp only
  repeat' split
  all_goals simp [Call.isCheck]

/-- On a frame whose `type` key is present, `process_request` consults the
rate limiter first and then dispatches. -/
theorem process_request_typed (env : Env) (sess : Session) (req : NativeRequest)
    (t : String) (ht : req.type? = some t) :
    process_request env sess (some req) =
      if env.check_limit sess.user_id t then
        ((if t = "send" then handle_send env sess req
          else if t = "list" then handle_list env sess req
          else if t = "fetch" then (.error "server_error", [])
          else if t = "update" then (.error "server_error", [])
          else (.error "invalid_request", [])).1,
         .checkLimit sess.user_id t ::
          (if t = "send" then handle_send env sess req
           else if t = "list" then handle_list env sess req
           else if t = "fetch" then (.error "server_error", [])
           else if t = "update" then (.error "server_error", [])
           else (.error "invalid_request", [])).2)
      else (.error "rate_limit_exceeded", [.checkLimit sess.user_id t]) := by
  unfold process_request
  dsimp only
  rw [ht]

/-- The dispatch table reached after an allowed rate-limit check never
adds a rate-limiter consultation of its own. -/
theorem dispatch_no_extra_check (env : Env) (sess : Session)
    (req : NativeRequest) (t : String) :
    ((if t = "send" then handle_send env sess req
      else if t = "list" then handle_list env sess req
      else if t = "fetch" then ((.error "server_error" : Response), ([] : List Call))
      else if t = "update" then (.error "server_error", [])
      else (.error "invalid_request", [])).2.countP Call.isCheck) = 0 := by
  split_ifs
  · exact handle_send_no_check env sess req
  · exact handle_list_no_check env sess req
  all_goals rfl

/-! ## The claims -/

/-- **C1** (status: code_bug).  The claim says every body line beginning
with a literal dot has exactly one leading dot removed, so the wire line
`".hello\r\n"` is stored as `"hello\r\n"`.  Evaluating
`read_email_data` at that failing input shows the code keeps the line
verbatim — the unstuffing test is `startswith('..')`, so only lines that
begin with two dots lose a dot (the claim's `".." ↦ "."` half does hold,
as the second line shows). -/
theorem read_email_data_keeps_single_dot :
    read_email_data [".hello\r\n", "..\r\n", ".\r\n"] =
      some (".hello\r\n.\r\n", []) := by rfl

/-- **C2** (status: confirmed).  On an authenticated session, when the
rate limiter denies the `(user_id, type)` pair, `process_request` replies
with status `error`, code `rate_limit_exceeded`, and its complete
collaborator trace is the single rate-limiter consultation: no Storage
operation (neither `store_email` nor `list_emails`) and no other side
effect occurs. -/
theorem process_request_rate_limited (env : Env) (sess : Session)
    (req : NativeRequest) (t : String) (ht : req.type? = some t)
    (hd : env.check_limit sess.user_id t = false) :
    process_request env sess (some req) =
      (.error "rate_limit_exceeded", [.checkLimit sess.user_id t]) := by
  rw [process_request_typed env sess req t ht, if_neg]
  simp [hd]

/-- Witness for **C2**: a concrete denied `send` request. -/
theorem process_request_rate_limited_witness :
    process_request envDeny sessDemo
        (some { NativeRequest.empty with type? := some "send" }) =
      (.error "rate_limit_exceeded", [.checkLimit "u1" "send"]) :=
  process_request_rate_limited envDeny sessDemo
    { NativeRequest.empty with type? := some "send" } "send" rfl rfl

/-- **C3** (status: corrected) — counterexample.  The claim says a
malformed frame, or one missing the `type` discriminator, is answered
with code `invalid_request`.  At both concrete inputs the code answers
`server_error` instead (the failure raises inside the `try` block and is
caught by the generic handler), so the claim as stated is false. -/
theorem process_request_malformed_not_invalid_request :
    (process_request envAllow sessDemo none).1 = .error "server_error" ∧
    (process_request envAllow sessDemo (some NativeRequest.empty)).1 =
      .error "server_error" ∧
    Response.error "server_error" ≠ Response.error "invalid_request" :=
  ⟨rfl, rfl, by decide⟩

/-- **C3** (status: corrected) — amended claim: a malformed frame or a
frame missing the `type` discriminator is answered with an error whose
code is `server_error` (and no collaborator call), and the request loop
continues — every frame of a session receives exactly one response. -/
theorem process_request_malformed_amended (env : Env) (sess : Session)
    (f : Option NativeRequest)
    (h : f = none ∨ ∃ req, f = some req ∧ req.type? = none) :
    process_request env sess f = (.error "server_error", []) ∧
    ∀ frames : List (Option NativeRequest),
      (session_responses env sess frames).length = frames.length := by
  constructor
  · rcases h with h | ⟨req, hf, ht⟩
    · rw [h]; rfl
    · rw [hf]
      unfold process_request
      dsimp only
      rw [ht]
  · intro frames
    simp [session_responses]

/-- Witness for the amended **C3** at a concrete missing-`type` frame and
a concrete two-frame session. -/
theorem process_request_malformed_amended_witness :
    process_request envAllow sessDemo (some NativeRequest.empty) =
      (.error "server_error", []) ∧
    (session_responses envAllow sessDemo [none, some NativeRequest.empty]).length = 2 :=
  ⟨(process_request_malformed_amended envAllow sessDemo
      (some NativeRequest.empty) (Or.inr ⟨NativeRequest.empty, rfl, rfl⟩)).1,
   (process_request_malformed_amended envAllow sessDemo none (Or.inl rfl)).2
     [none, some NativeRequest.empty]⟩

/-- **C4** (status: corrected) — counterexample.  The claim says `AUTH` is
accepted only in the `READY` state (entered on `HELO`/`EHLO`).  Here
`AUTH PLAIN` is the very first command of the connection — the spec's
`WELCOME` state, before any `HELO` — yet the code processes it, consumes
the credential line, and reports authentication success. -/
theorem smtp_auth_accepted_before_helo :
    (process_smtp envAllow ["AUTH PLAIN\r\n", "dXNlcjpwYXNz\r\n", "QUIT\r\n"]
        SMTPEmail.empty).1 =
      [.reply "235 Authentication successful\r\n", .reply "221 Bye\r\n"] := by
  rfl

/-- **C4** (status: corrected) — amended claim: the connection keeps no
protocol-state tag at all; each command is dispatched purely by its
(upper-cased, stripped) prefix, identically in every transaction state
`cur`: `AUTH PLAIN` is handled wherever it occurs (consuming one
credential line), `DATA` starts body capture in any state, `MAIL FROM`
merely overwrites the sender in any state, and `HELO` always answers
`250 Hello`. -/
theorem smtp_dispatch_stateless (env : Env) (cur : SMTPEmail) (cred : String)
    (rest : List String) :
    (smtp_step env "AUTH PLAIN\r\n" (cred :: rest) cur =
      if env.authOk (pyStripWS cred) then
        ([.reply "235 Authentication successful\r\n"], .cont rest cur)
      else ([.reply "535 Authentication failed\r\n"], .cont rest cur)) ∧
    ((smtp_step env "DATA\r\n" rest cur).1.head? =
      some (.reply "354 End data with <CR><LF>.<CR><LF>\r\n")) ∧
    (smtp_step env "MAIL FROM:<x@y>\r\n" rest cur =
      ([.reply "250 OK\r\n"], .cont rest { cur with fromAddr := some "x@y" })) ∧
    (smtp_step env "HELO client\r\n" rest cur =
      ([.reply "250 Hello\r\n"], .cont rest cur)) := by
  refine ⟨rfl, ?_, rfl, rfl⟩
  cases hr : read_email_data rest with
  | none =>
    unfold smtp_step
    dsimp only
    rw [hr]
    rfl
  | some p =>
    obtain ⟨bdy, rem⟩ := p
    unfold smtp_step
    dsimp only
    rw [hr]
    dsimp only
    cases hc : smtp_to_nep env { cur with data := some bdy } with
    | none => rfl
    | some e =>
      dsimp only
      by_cases hs : env.storeOk e = true
      · rw [if_pos hs]
        rfl
      · rw [if_neg hs]
        rfl

/-- **C5** (status: corrected) — counterexample.  The claim says the
transaction resets regardless of storage outcome and that a storage
failure is answered with a transaction-scoped failure status while the
connection stays open.  With a failing store, the trace ends at the
`store_email` call: no failure status is ever written, the transaction is
not reset (`from`/`to`/`data` still populated), and the session ends with
the propagating exception — the trailing `QUIT` is never served. -/
theorem smtp_store_failure_no_status_no_reset :
    process_smtp envStoreFail
        ["HELO relay\r\n", "MAIL FROM:<a@x>\r\n", "RCPT TO:<b@x>\r\n",
         "DATA\r\n", "hi\r\n", ".\r\n", "QUIT\r\n"] SMTPEmail.empty =
      ([.reply "250 Hello\r\n", .reply "250 OK\r\n", .reply "250 OK\r\n",
        .reply "354 End data with <CR><LF>.<CR><LF>\r\n",
        .storeEmail { message_id := "id1", from_addr := "a@x",
                      to_addrs := ["b@x"], subject := "", body := "hi\r\n",
                      attachments := [] }],
       { fromAddr := some "a@x", to' := ["b@x"], data := some "hi\r\n" },
       .exn) := by
  rfl

/-- **C5** (status: corrected) — amended claim: on body-capture
completion the accumulated transaction is handed to `store_email`; if
storage succeeds, `250 OK` is written and the transaction resets to
empty; if storage fails, no status at all is written, the transaction is
not reset, and the exception terminates the connection. -/
theorem smtp_data_completion (env : Env) (raw : String) (rest : List String)
    (cur : SMTPEmail) (bdy : String) (rem : List String) (e : EmailMessage)
    (hu : pyUpper (pyStripWS raw) = "DATA")
    (hread : read_email_data rest = some (bdy, rem))
    (hconv : smtp_to_nep env { cur with data := some bdy } = some e) :
    smtp_step env raw rest cur =
      if env.storeOk e then
        ([.reply "354 End data with <CR><LF>.<CR><LF>\r\n", .storeEmail e,
          .reply "250 OK\r\n"], .cont rem SMTPEmail.empty)
      else
        ([.reply "354 End data with <CR><LF>.<CR><LF>\r\n", .storeEmail e],
         .exn { cur with data := some bdy }) := by
  unfold smtp_step
  dsimp only
  rw [hu, hread]
  dsimp only
  rw [hconv]
  rfl

/-- Witness for the amended **C5** at a concrete completed transaction. -/
theorem smtp_data_completion_witness :
    smtp_step envAllow "DATA\r\n" ["hi\r\n", ".\r\n"]
        ⟨some "a@x", ["r@x"], none⟩ =
      ([.reply "354 End data with <CR><LF>.<CR><LF>\r\n",
        .storeEmail { message_id := "id1", from_addr := "a@x",
                      to_addrs := ["r@x"], subject := "", body := "hi\r\n",
                      attachments := [] },
        .reply "250 OK\r\n"], .cont [] SMTPEmail.empty) := by
  have h := smtp_data_completion envAllow "DATA\r\n" ["hi\r\n", ".\r\n"]
      ⟨some "a@x", ["r@x"], none⟩ "hi\r\n" []
      { message_id := "id1", from_addr := "a@x", to_addrs := ["r@x"],
        subject := "", body := "hi\r\n", attachments := [] }
      rfl rfl rfl
  simpa using h

/-- **C6** (status: code_bug).  The claim (and the spec) say a new
`MAIL FROM` resets the pending transaction to empty, so recipients never
leak between transactions.  Evaluating the code on a connection that
aborts a first transaction (`MAIL FROM` + `RCPT TO`) and starts a second
one shows the stored email carries `to_addrs = ["b@x", "d@x"]`: the
recipient `b@x` of the abandoned first transaction leaks into the email
of the second, because the `MAIL FROM` handler only overwrites the
sender field. -/
theorem smtp_mail_from_keeps_recipients :
    ((process_smtp envAllow
        ["HELO relay\r\n", "MAIL FROM:<a@x>\r\n", "RCPT TO:<b@x>\r\n",
         "MAIL FROM:<c@x>\r\n", "RCPT TO:<d@x>\r\n", "DATA\r\n", "m\r\n",
         ".\r\n", "QUIT\r\n"] SMTPEmail.empty).1.filter Call.isStorage) =
      [.storeEmail { message_id := "id1", from_addr := "c@x",
                     to_addrs := ["b@x", "d@x"], subject := "", body := "m\r\n",
                     attachments := [] }] := by
  rfl

/-- **C7** (status: code_bug).  The claim (and the spec's data-model
invariant) say no handler ever hands `store_email` an email with zero
recipients.  The native `send` handler only checks that the `to`,
`subject`, `body` keys are *present*, so the request
`{type: send, to: [], subject: "s", body: "b"}` is accepted and
`store_email` is invoked with `to_addrs = []`. -/
theorem handle_send_stores_zero_recipients :
    process_request envAllow sessDemo
        (some { NativeRequest.empty with
                type? := some "send", to? := some [],
                subject? := some "s", body? := some "b" }) =
      (.okSend "id1",
       [.checkLimit "u1" "send",
        .storeEmail { message_id := "id1", from_addr := "u@x", to_addrs := [],
                      subject := "s", body := "b", attachments := [] }]) := by
  rfl

/-- **C8** (status: confirmed).  For every native `list` request the
handler's complete collaborator trace is the single `list_emails` call
whose arguments default missing fields to `mailbox = "INBOX"`,
`limit = 50`, `offset = 0` (so the handler is read-only — it performs no
other Storage operation), and a `list_emails` failure is answered with
code `storage_error`. -/
theorem handle_list_defaults_readonly (env : Env) (sess : Session)
    (req : NativeRequest) :
    ((handle_list env sess req).2 =
      [.listEmails sess.email (req.mailbox?.getD "INBOX") (req.limit?.getD 50)
        (req.offset?.getD 0)]) ∧
    (req.mailbox? = none → req.limit? = none → req.offset? = none →
      (handle_list env sess req).2 = [.listEmails sess.email "INBOX" 50 0]) ∧
    (env.listResult sess.email (req.mailbox?.getD "INBOX") (req.limit?.getD 50)
        (req.offset?.getD 0) = none →
      (handle_list env sess req).1 = .error "storage_error") := by
  refine ⟨?_, ?_, ?_⟩
  · unfold handle_list
    dsimp only
    cases env.listResult sess.email (req.mailbox?.getD "INBOX")
        (req.limit?.getD 50) (req.offset?.getD 0) <;> rfl
  · intro h1 h2 h3
    unfold handle_list
    dsimp only
    rw [h1, h2, h3]
    dsimp only [Option.getD]
    cases env.listResult sess.email "INBOX" 50 0 <;> rfl
  · intro h
    unfold handle_list
    dsimp only
    rw [h]

/-- Witness for **C8**: a `list` request with every optional field absent,
against a storage whose `list_emails` raises. -/
theorem handle_list_defaults_readonly_witness :
    (handle_list envListFail sessDemo NativeRequest.empty).2 =
      [.listEmails "u@x" "INBOX" 50 0] ∧
    (handle_list envListFail sessDemo NativeRequest.empty).1 =
      .error "storage_error" :=
  ⟨(handle_list_defaults_readonly envListFail sessDemo
      NativeRequest.empty).2.1 rfl rfl rfl,
   (handle_list_defaults_readonly envListFail sessDemo
      NativeRequest.empty).2.2 rfl⟩

/-- **C9** (status: corrected) — counterexample.  The claim says every
protocol surface, the SMTP-compatible one included, consults the rate
limiter before dispatching to Storage.  A complete SMTP transaction
reaches `store_email` (one Storage event in the trace) while the trace
contains zero rate-limiter consultations; in particular the trace has a
Storage call that no check precedes. -/
theorem smtp_stores_without_rate_check :
    ((process_smtp envAllow
        ["HELO relay\r\n", "MAIL FROM:<s@x>\r\n", "RCPT TO:<r@x>\r\n",
         "DATA\r\n", "hello\r\n", ".\r\n", "QUIT\r\n"]
        SMTPEmail.empty).1.countP Call.isStorage = 1) ∧
    ((process_smtp envAllow
        ["HELO relay\r\n", "MAIL FROM:<s@x>\r\n", "RCPT TO:<r@x>\r\n",
         "DATA\r\n", "hello\r\n", ".\r\n", "QUIT\r\n"]
        SMTPEmail.empty).1.countP Call.isCheck = 0) ∧
    storeBeforeCheck
      (process_smtp envAllow
        ["HELO relay\r\n", "MAIL FROM:<s@x>\r\n", "RCPT TO:<r@x>\r\n",
         "DATA\r\n", "hello\r\n", ".\r\n", "QUIT\r\n"]
        SMTPEmail.empty).1 = true :=
  ⟨rfl, rfl, rfl⟩

/-- **C9** (status: corrected) — amended claim: the rate limiter is
consulted before Storage dispatch only on the native protocol — no
`process_request` trace contains a Storage call that a rate-limiter check
does not precede — while the SMTP handler never consults the rate
limiter at all (its traces contain zero checks), even though it does
dispatch to Storage (see the counterexample). -/
theorem rate_check_native_only (env : Env) :
    (∀ (sess : Session) (frame : Option NativeRequest),
      storeBeforeCheck (process_request env sess frame).2 = false) ∧
    (∀ (input : List String) (cur : SMTPEmail),
      ((process_smtp env input cur).1.countP Call.isCheck) = 0) := by
  constructor
  · intro sess frame
    match frame with
    | none => rfl
    | some req =>
      match ht : req.type? with
      | none =>
        unfold process_request
        dsimp only
        rw [ht]
        rfl
      | some t =>
        rw [process_request_typed env sess req t ht]
        by_cases hc : env.check_limit sess.user_id t = true
        · rw [if_pos hc]
          rfl
        · rw [if_neg hc]
          rfl
  · intro input cur
    exact process_smtp_fuel_no_check env input.length input cur

/-- **C10** (status: confirmed).  On any frame whose `type` key is
present, the rate-limiter consultation keyed on that type is the first
collaborator call and happens exactly once — before the type is
validated against the known set — so a denied user gets
`rate_limit_exceeded` even when the type is unknown, and every
well-formed request, of any type whatsoever, consumes exactly one
`check_limit` call. -/
theorem rate_check_precedes_validation (env : Env) (sess : Session)
    (req : NativeRequest) (t : String) (ht : req.type? = some t) :
    ((process_request env sess (some req)).2.countP Call.isCheck = 1) ∧
    ((process_request env sess (some req)).2.head? =
      some (.checkLimit sess.user_id t)) ∧
    (env.check_limit sess.user_id t = false →
      (process_request env sess (some req)).1 = .error "rate_limit_exceeded") := by
  rw [process_request_typed env sess req t ht]
  by_cases hc : env.check_limit sess.user_id t = true
  · rw [if_pos hc]
    refine ⟨?_, rfl, ?_⟩
    · simp [List.countP_cons, Call.isCheck,
        dispatch_no_extra_check env sess req t]
    · intro hfalse
      rw [hc] at hfalse
      exact absurd hfalse (by simp)
  · rw [if_neg hc]
    exact ⟨by simp [Call.isCheck], rfl, fun _ => rfl⟩

/-- Witness for **C10**: a denied request with the unknown type
`"frobnicate"` still consumes its one rate-limiter check, which is the
head of the trace, and is answered `rate_limit_exceeded`, not
`invalid_request`. -/
theorem rate_check_precedes_validation_witness :
    ((process_request envDeny sessDemo
        (some { NativeRequest.empty with type? := some "frobnicate" })).2.countP
        Call.isCheck = 1) ∧
    ((process_request envDeny sessDemo
        (some { NativeRequest.empty with type? := some "frobnicate" })).2.head? =
      some (.checkLimit "u1" "frobnicate")) ∧
    (envDeny.check_limit "u1" "frobnicate" = false →
      (process_request envDeny sessDemo
        (some { NativeRequest.empty with type? := some "frobnicate" })).1 =
        .error "rate_limit_exceeded") :=
  rate_check_precedes_validation envDeny sessDemo
    { NativeRequest.empty with type? := some "frobnicate" } "frobnicate" rfl

end NEP
